import Mathlib

/-!
Verification development for the TCP discrete-event simulator in
`ProblemSet5/TCPSimulator.py`.

The Python module is shallowly embedded below.  Pure per-method behavior
becomes Lean functions on explicit state records; the mutable objects
(`TCPClient`, `TCPServer`, the priority queue, console input and the
`random` module) become fields of a `World` record threaded through a
step function.  Bytes are modelled as natural numbers, byte strings as
`List ℕ`.  The float constant `LOST_PACKET_PROBABILITY = 0.25` is modelled
as the rational `1/4` (0.25 and 1.0 are exactly representable in binary
floating point, and the only float operations performed are comparisons
against the integers 0 and 1, which are exact).
-/

namespace TCPSim

/-- Constant from the source: `MAX_PACKET_DATA = 4`. -/
def MAX_PACKET_DATA : ℕ := 4

/-- Constant from the source: `TRANSMISSION_DELAY = 5`. -/
def TRANSMISSION_DELAY : ℕ := 5

/-- Constant from the source: `LOST_PACKET_PROBABILITY = 0.25`, an exact
binary float, modelled as the rational 1/4 (`mkRat` keeps the definition
kernel-computable). -/
def LOST_PACKET_PROBABILITY : ℚ := mkRat 1 4

/-- Constant from the source: `ROUND_TRIP_TIME = 2 * TRANSMISSION_DELAY`. -/
def ROUND_TRIP_TIME : ℕ := 2 * TRANSMISSION_DELAY

/-- Constant from the source: `TIMEOUT = 2 * ROUND_TRIP_TIME`. -/
def TIMEOUT : ℕ := 2 * ROUND_TRIP_TIME

/-- Modelled from the spec: the packet container `TCPPacket` lives in the
external `packet` module (out of scope per the spec, not present in the
repository).  Per spec section 3 a packet is an immutable record
{seq, ack, flags ACK/FIN/SYN, window, data}.  The source constructs packets
with keyword arguments `TCPPacket(seq=..., ack=..., ACK=True, data=...)`
and `TCPPacket(seq=..., ack=..., ACK=True)`; omitted fields take the
constructor defaults, modelled as 0 / false / empty.  In particular the
server's replies are built without a `window` argument, so they carry the
default window. -/
structure TCPPacket where
  seq : ℕ := 0
  ack : ℕ := 0
  ACK : Bool := false
  FIN : Bool := false
  SYN : Bool := false
  window : ℕ := 0
  data : List ℕ := []
deriving DecidableEq

/-- State of the Python `TCPClient` object.  `acknowledged` models the
dictionary `self.acknowledged`: the only writes are `__init__`'s `{}` and
`self.acknowledged[p] = True`, so every stored value is `True` and the
dictionary is exactly its key set, modelled as the list of inserted
packets (later duplicates overwrite with the same value, so membership is
the faithful observable).  `msgBytes`, `seq` and `ack` are created by
`requestMessage`; before that call they are modelled by their defaults. -/
structure TCPClient where
  msgBytes : List ℕ := []
  seq : ℕ := 0
  ack : ℕ := 0
  acknowledged : List TCPPacket := []
deriving DecidableEq

/-- State of the Python `TCPServer` object.  `resetForNextMessage` (called
by `__init__`) sets `msgBytes = bytearray()` and `ack = 0`; the attribute
`seq` is first written inside `receivePacket` before any read, modelled
with default 0. -/
structure TCPServer where
  msgBytes : List ℕ := []
  seq : ℕ := 0
  ack : ℕ := 0
deriving DecidableEq

/-- The two receive-packet handlers wired up by `TCPSimulator()`:
`client.server = server; server.client = client`. -/
inductive Handler where
  | client
  | server
deriving DecidableEq

/-- The closed set of `TCPEvent` subclasses in the source.
`RequestMessageEvent(client)` and `TimeoutEvent(client)` each reference
the single client object, so the reference is implicit;
`ReceivePacketEvent(handler, packet)` carries its handler and packet. -/
inductive TCPEvent where
  | requestMessage
  | receivePacket (handler : Handler) (packet : TCPPacket)
  | timeout
deriving DecidableEq

/-- Modelled from the spec: the priority queue lives in the external
`pqueue` module (out of scope per the spec, not present in the
repository).  Per spec sections 2 and 4.1 it is time-ordered with FIFO
tie-break among equal times; modelled as a sorted association list into
which `enqueue` inserts strictly after every entry of time ≤ t. -/
def enqueue (q : List (TCPEvent × ℕ)) (e : TCPEvent) (t : ℕ) :
    List (TCPEvent × ℕ) :=
  match q with
  | [] => [(e, t)]
  | (e', t') :: rest =>
    if t' ≤ t then (e', t') :: enqueue rest e t else (e, t) :: (e', t') :: rest

/-- Loss draw from the source line
`if random.randint(0,1) >= LOST_PACKET_PROBABILITY:`.
`random.randint(0,1)` returns an integer draw in {0,1}; the packet is
delivered exactly when the draw is at least the loss probability.  The
probability is a parameter so that the configurations 0, 1/4 and 1
discussed by the spec can all be examined. -/
def shouldDeliver (lossProb : ℚ) (draw : ℕ) : Bool :=
  decide (lossProb ≤ (draw : ℚ))

/-- The data packet built at the top of `TCPClient.sendNextPacket`:
`nBytes = min(MAX_PACKET_DATA, len(self.msgBytes) - self.seq)`,
`data = self.msgBytes[self.seq:self.seq + nBytes]`,
`p = TCPPacket(seq=self.seq, ack=self.ack, ACK=True, data=data)`,
then `p.FIN = True` iff `self.seq + nBytes == len(self.msgBytes)`. -/
def TCPClient.nextPacket (c : TCPClient) : TCPPacket :=
  let nBytes := min MAX_PACKET_DATA (c.msgBytes.length - c.seq)
  { seq := c.seq, ack := c.ack, ACK := true,
    FIN := c.seq + nBytes == c.msgBytes.length,
    data := (c.msgBytes.drop c.seq).take nBytes }

/-- `TCPClient.sendNextPacket`: builds the next data packet, and if the
loss draw delivers, enqueues `ReceivePacketEvent(self.server, p)` at
`t + TRANSMISSION_DELAY`, and when the packet carries FIN additionally
enqueues a `RequestMessageEvent` at `t + TIMEOUT`
(`queueRequestMessage(eventQueue, t + TIMEOUT)`).  If the draw drops the
packet, nothing at all is enqueued.  The client object itself is not
mutated by this method, so only the queue is returned. -/
def TCPClient.sendNextPacket (lossProb : ℚ) (c : TCPClient)
    (q : List (TCPEvent × ℕ)) (t : ℕ) (draw : ℕ) : List (TCPEvent × ℕ) :=
  let p := c.nextPacket
  if shouldDeliver lossProb draw then
    let q1 := enqueue q (.receivePacket .server p) (t + TRANSMISSION_DELAY)
    if p.FIN then enqueue q1 .requestMessage (t + TIMEOUT) else q1
  else q

/-- The pure state update at the head of `TCPClient.receivePacket`:
`self.seq = p.ack; self.ack = p.seq + 1; self.acknowledged[p] = True`. -/
def TCPClient.ackUpdate (c : TCPClient) (p : TCPPacket) : TCPClient :=
  { c with seq := p.ack, ack := p.seq + 1, acknowledged := p :: c.acknowledged }

/-- Pops the next `random.randint(0,1)` oracle value (0 if exhausted). -/
def takeDraw : List ℕ → ℕ × List ℕ
  | [] => (0, [])
  | d :: rest => (d, rest)

/-- `TCPClient.receivePacket(p, eventQueue, t)`: performs the field
updates, then `if self.seq < len(self.msgBytes): self.sendNextPacket`.
Returns the updated client, queue and remaining draw oracle. -/
def TCPClient.receivePacket (lossProb : ℚ) (c : TCPClient) (p : TCPPacket)
    (q : List (TCPEvent × ℕ)) (t : ℕ) (draws : List ℕ) :
    TCPClient × List (TCPEvent × ℕ) × List ℕ :=
  let c1 := c.ackUpdate p
  if c1.seq < c1.msgBytes.length then
    (c1, TCPClient.sendNextPacket lossProb c1 q t (takeDraw draws).1,
      (takeDraw draws).2)
  else (c1, q, draws)

/-- `TCPClient.requestMessage(eventQueue, t)`: reads a message from the
input collaborator; if non-empty, sets `self.msgBytes`, `self.seq = 0`,
`self.ack = 0` (the `acknowledged` dictionary is not touched) and calls
`sendNextPacket`. -/
def TCPClient.requestMessage (lossProb : ℚ) (c : TCPClient) (msg : List ℕ)
    (q : List (TCPEvent × ℕ)) (t : ℕ) (draws : List ℕ) :
    TCPClient × List (TCPEvent × ℕ) × List ℕ :=
  if msg.length ≠ 0 then
    let c1 : TCPClient := { c with msgBytes := msg, seq := 0, ack := 0 }
    (c1, TCPClient.sendNextPacket lossProb c1 q t (takeDraw draws).1,
      (takeDraw draws).2)
  else (c, q, draws)

/-- `TCPServer.receivePacket(p, eventQueue, t)` minus the enqueue of the
reply (done by the world-level dispatcher):
`self.msgBytes.extend(p.data); self.seq = p.ack;
self.ack = p.seq + len(p.data);
reply = TCPPacket(seq=self.seq, ack=self.ack, ACK=True)`;
if `p.FIN`: `reply.FIN = True`, print the reassembled buffer (returned
here as the output list) and `resetForNextMessage()` (which clears
`msgBytes` and zeroes `ack` but leaves `seq`).  Returns
(new server state, reply packet, printed outputs). -/
def TCPServer.receivePacket (s : TCPServer) (p : TCPPacket) :
    TCPServer × TCPPacket × List (List ℕ) :=
  let msg := s.msgBytes ++ p.data
  let reply : TCPPacket :=
    { seq := p.ack, ack := p.seq + p.data.length, ACK := true, FIN := p.FIN }
  if p.FIN then
    ({ msgBytes := [], seq := p.ack, ack := 0 }, reply, [msg])
  else
    ({ msgBytes := msg, seq := p.ack, ack := p.seq + p.data.length }, reply, [])

/-- Python exceptions that the simulator can raise at dispatch time. -/
inductive PyExn where
  | attributeError (attr : String)
deriving DecidableEq

/-- `TimeoutEvent.dispatch(eventQueue, t)` from the source:

`if self.packet.ack: pass else: self.server.recievePacket(...)`.

The driver constructs the single `TimeoutEvent` as `TimeoutEvent(self,)`
inside `TCPClient.queueTimeoutMessage`, storing the client object in the
`packet` field; `self.packet.ack` therefore reads the client's `ack`
attribute.  The argument is that attribute's value, `none` when the
attribute does not exist yet (before `requestMessage` assigns it), in
which case the read itself raises `AttributeError`.  When the attribute
is truthy (non-zero) the dispatch falls through `pass`, enqueuing and
resending nothing, modelled as `ok []`.  When it is falsy the `else`
branch reads `self.server`, an attribute `TimeoutEvent` never defines, so
an `AttributeError` is raised (the misspelled method `recievePacket`,
which no class defines, is never even reached). -/
def TimeoutEvent.dispatch (packetAck : Option ℕ) :
    Except PyExn (List (TCPEvent × ℕ)) :=
  match packetAck with
  | none => .error (.attributeError "ack")
  | some a => if a ≠ 0 then .ok [] else .error (.attributeError "server")

/-- The whole mutable state of one run of `TCPSimulator()`: the client
and server objects, the event queue, the console-input collaborator
(`inputs`, one entry per `input()` call, exhaustion behaving as the empty
string), the `random.randint(0,1)` oracle (`draws`), the lines printed by
the server, and whether an uncaught exception has terminated the run. -/
structure World where
  lossProb : ℚ
  client : TCPClient
  server : TCPServer
  queue : List (TCPEvent × ℕ)
  inputs : List (List ℕ)
  draws : List ℕ
  output : List (List ℕ)
  crashed : Bool
deriving DecidableEq

/-- Dispatch of one dequeued event, per the `dispatch` methods of the
three `TCPEvent` subclasses:
`RequestMessageEvent` calls `client.requestMessage`;
`ReceivePacketEvent` calls `handler.receivePacket` (the server handler
additionally enqueues its reply at `t + TRANSMISSION_DELAY`, unconditionally
and with no loss draw, exactly as in `TCPServer.receivePacket`);
`TimeoutEvent` runs `TimeoutEvent.dispatch` on the client's `ack`
attribute, an uncaught exception ending the run. -/
def dispatchEvent (w : World) (e : TCPEvent) (t : ℕ) : World :=
  match e with
  | .requestMessage =>
    match w.inputs with
    | [] => w
    | msg :: rest =>
      let r := TCPClient.requestMessage w.lossProb w.client msg w.queue t w.draws
      { w with client := r.1, queue := r.2.1, draws := r.2.2, inputs := rest }
  | .receivePacket .server p =>
    let r := w.server.receivePacket p
    { w with
      server := r.1
      output := w.output ++ r.2.2
      queue := enqueue w.queue (.receivePacket .client r.2.1)
        (t + TRANSMISSION_DELAY) }
  | .receivePacket .client p =>
    let r := TCPClient.receivePacket w.lossProb w.client p w.queue t w.draws
    { w with client := r.1, queue := r.2.1, draws := r.2.2 }
  | .timeout =>
    match TimeoutEvent.dispatch (some w.client.ack) with
    | .ok _ => w
    | .error _ => { w with crashed := true }

/-- One iteration of the driver loop in `TCPSimulator()`:
`e,t = eventQueue.dequeueWithPriority(); e.dispatch(eventQueue, t)`. -/
def stepWorld (w : World) : World :=
  match w.queue with
  | [] => w
  | (e, t) :: rest => dispatchEvent { w with queue := rest } e t

/-- The driver loop `while not eventQueue.isEmpty(): ...`, fuelled; a
raised exception (crash) aborts the whole program. -/
def runWorld : ℕ → World → World
  | 0, w => w
  | n + 1, w =>
    if w.crashed || w.queue.isEmpty then w else runWorld n (stepWorld w)

/-- The initial state built by `TCPSimulator()`: fresh client and server,
`client.queueRequestMessage(eventQueue, 0)` then
`client.queueTimeoutMessage(eventQueue, TIMEOUT)`. -/
def initWorld (lossProb : ℚ) (inputs : List (List ℕ)) (draws : List ℕ) :
    World :=
  { lossProb := lossProb, client := {}, server := {},
    queue := enqueue (enqueue [] .requestMessage 0) .timeout TIMEOUT,
    inputs := inputs, draws := draws, output := [], crashed := false }

/-- The zero-loss message exchange generated by the event queue for a
single message: with loss probability 0 every draw delivers, so each
dispatched event produces exactly the next one in the chain
send → `TCPServer.receivePacket` → `TCPClient.receivePacket` → send …
until the client has nothing left to send.  Each round applies the very
step functions above: the client's pending `nextPacket` reaches the
server, the server's reply reaches the client (`ackUpdate`), and the
client continues exactly when `self.seq < len(self.msgBytes)`.  The
bookkeeping events that coexist in the queue (the single `TimeoutEvent`,
which fires with a truthy `ack` and is a no-op, and post-FIN
`RequestMessageEvent`s, which touch neither buffer) are omitted as they
do not affect the server's buffer.  Returns the list of messages the
server prints. -/
def exchange : ℕ → TCPClient → TCPServer → List (List ℕ)
  | 0, _, _ => []
  | fuel + 1, c, s =>
    let r := s.receivePacket c.nextPacket
    let c1 := c.ackUpdate r.2.1
    if c1.seq < c1.msgBytes.length then r.2.2 ++ exchange fuel c1 r.1
    else r.2.2

/-- The UTF-8 bytes of the spec's running example message HELLO. -/
def hello : List ℕ := [72, 69, 76, 76, 79]

/-- The server's acknowledgment to the first HELLO segment, exactly the
reply `TCPPacket(seq=0, ack=4, ACK=True)` built by
`TCPServer.receivePacket`; all omitted fields are constructor defaults,
in particular its advertised `window` is 0. -/
def ackReply0 : TCPPacket := { seq := 0, ack := 4, ACK := true }

/-- The first HELLO data packet `{seq=0, data=HELL, ACK}`: the packet the
client puts in flight when it starts sending HELLO. -/
def helloDataPacket0 : TCPPacket :=
  { seq := 0, ack := 0, ACK := true, data := [72, 69, 76, 76] }

/-- The second HELLO data packet `{seq=4, data=[79], ACK, FIN}` that the
client builds once the first four bytes are acknowledged. -/
def finPacket1 : TCPPacket :=
  { seq := 4, ack := 1, ACK := true, FIN := true, data := [79] }

/-- A server that has already received and acknowledged the eight bytes
10..80 of a message (next-expected-seq 8). -/
def dupServer : TCPServer :=
  { msgBytes := [10, 20, 30, 40, 50, 60, 70, 80], ack := 8 }

/-- A duplicate redelivery of the first, long-since-acknowledged segment
of `dupServer`'s message. -/
def dupPacket : TCPPacket :=
  { seq := 0, ack := 1, ACK := true, data := [10, 20, 30, 40] }

/-! ## Lemmas about the event queue -/

theorem mem_enqueue {q : List (TCPEvent × ℕ)} {e : TCPEvent} {t : ℕ}
    {x : TCPEvent × ℕ} (h : x ∈ enqueue q e t) : x ∈ q ∨ x = (e, t) := by
  induction q with
  | nil =>
    simp only [enqueue, List.mem_singleton] at h
    exact Or.inr h
  | cons hd tl ih =>
    obtain ⟨e', t'⟩ := hd
    simp only [enqueue] at h
    split at h
    · rcases List.mem_cons.mp h with h1 | h1
      · exact Or.inl (h1 ▸ List.mem_cons_self _ _)
      · rcases ih h1 with h2 | h2
        · exact Or.inl (List.mem_cons_of_mem _ h2)
        · exact Or.inr h2
    · rcases List.mem_cons.mp h with h1 | h1
      · exact Or.inr h1
      · exact Or.inl h1

theorem mem_enqueue_of_mem {q : List (TCPEvent × ℕ)} {x : TCPEvent × ℕ}
    (e : TCPEvent) (t : ℕ) (h : x ∈ q) : x ∈ enqueue q e t := by
  induction q with
  | nil => simp at h
  | cons hd tl ih =>
    obtain ⟨e', t'⟩ := hd
    simp only [enqueue]
    split
    · rcases List.mem_cons.mp h with h1 | h1
      · exact h1 ▸ List.mem_cons_self _ _
      · exact List.mem_cons_of_mem _ (ih h1)
    · exact List.mem_cons_of_mem _ h

theorem self_mem_enqueue (q : List (TCPEvent × ℕ)) (e : TCPEvent) (t : ℕ) :
    (e, t) ∈ enqueue q e t := by
  induction q with
  | nil => simp [enqueue]
  | cons hd tl ih =>
    obtain ⟨e', t'⟩ := hd
    simp only [enqueue]
    split
    · exact List.mem_cons_of_mem _ ih
    · exact List.mem_cons_self _ _

/-! ## Monotonicity of the client's acknowledged map -/

/-- No dispatch ever removes a packet from the client's `acknowledged`
dictionary (nor overwrites a stored `True`): `requestMessage` leaves the
dictionary untouched, `TCPClient.receivePacket` only inserts, and the
server and timeout dispatches do not reach the client object. -/
theorem dispatchEvent_acknowledged_mono (w : World) (e : TCPEvent) (t : ℕ)
    {p : TCPPacket} (h : p ∈ w.client.acknowledged) :
    p ∈ (dispatchEvent w e t).client.acknowledged := by
  cases e with
  | requestMessage =>
    cases hin : w.inputs with
    | nil => simpa [dispatchEvent, hin] using h
    | cons msg rest =>
      simp only [dispatchEvent, hin]
      unfold TCPClient.requestMessage
      split
      · simpa using h
      · simpa using h
  | receivePacket hd pkt =>
    cases hd with
    | client =>
      simp only [dispatchEvent, TCPClient.receivePacket]
      split
      · simpa [TCPClient.ackUpdate] using Or.inr h
      · simpa [TCPClient.ackUpdate] using Or.inr h
    | server => simpa [dispatchEvent] using h
  | timeout =>
    simp only [dispatchEvent]
    split <;> simpa using h

theorem stepWorld_acknowledged_mono (w : World) {p : TCPPacket}
    (h : p ∈ w.client.acknowledged) :
    p ∈ (stepWorld w).client.acknowledged := by
  unfold stepWorld
  split
  · exact h
  · exact dispatchEvent_acknowledged_mono _ _ _ h

/-! ## Correctness of the zero-loss exchange -/

/-- Invariant-based correctness of the zero-loss exchange: if the server
buffer holds exactly the first `c.seq` bytes of the client's message and
unsent bytes remain, then running the exchange with enough fuel delivers
exactly the whole message. -/
theorem exchange_delivers :
    ∀ (fuel : ℕ) (c : TCPClient) (s : TCPServer),
      c.seq < c.msgBytes.length →
      s.msgBytes = c.msgBytes.take c.seq →
      c.msgBytes.length - c.seq ≤ MAX_PACKET_DATA * fuel →
      exchange fuel c s = [c.msgBytes] := by
  intro fuel
  induction fuel with
  | zero =>
    intro c s h1 _ h3
    simp only [MAX_PACKET_DATA, Nat.mul_zero, Nat.le_zero] at h3
    omega
  | succ n ih =>
    intro c s h1 h2 h3
    have hmin : min MAX_PACKET_DATA (c.msgBytes.length - c.seq) ≤
        c.msgBytes.length - c.seq := min_le_right _ _
    have hdatalen : c.nextPacket.data.length =
        min MAX_PACKET_DATA (c.msgBytes.length - c.seq) := by
      simp only [TCPClient.nextPacket, List.length_take, List.length_drop]
      omega
    by_cases hfin : c.seq + min MAX_PACKET_DATA (c.msgBytes.length - c.seq) =
        c.msgBytes.length
    · -- final slice: the packet carries FIN, the buffer is printed whole
      have hFINt : c.nextPacket.FIN = true := by
        simp [TCPClient.nextPacket, hfin]
      have hbuf : s.msgBytes ++ c.nextPacket.data = c.msgBytes := by
        rw [h2]
        simp only [TCPClient.nextPacket]
        rw [← List.take_add]
        rw [hfin, List.take_length]
      simp only [exchange, TCPServer.receivePacket, hFINt, if_true]
      simp only [TCPClient.ackUpdate, hbuf]
      have hseq : c.nextPacket.seq + c.nextPacket.data.length =
          c.msgBytes.length := by
        simp only [TCPClient.nextPacket, List.length_take, List.length_drop]
        omega
      simp [hseq]
    · -- interior slice: exactly MAX_PACKET_DATA bytes, no FIN, recurse
      have h4 : MAX_PACKET_DATA < c.msgBytes.length - c.seq := by
        simp only [MAX_PACKET_DATA] at hfin hmin ⊢
        omega
      have hmin4 : min MAX_PACKET_DATA (c.msgBytes.length - c.seq) =
          MAX_PACKET_DATA := min_eq_left (le_of_lt h4)
      have hFINf : c.nextPacket.FIN = false := by
        simp [TCPClient.nextPacket, hfin]
      have hseq : c.nextPacket.seq + c.nextPacket.data.length =
          c.seq + MAX_PACKET_DATA := by
        simp only [TCPClient.nextPacket, List.length_take, List.length_drop]
        simp only [MAX_PACKET_DATA] at h4 ⊢
        omega
      have hbuf : s.msgBytes ++ c.nextPacket.data =
          c.msgBytes.take (c.seq + MAX_PACKET_DATA) := by
        rw [h2]
        simp only [TCPClient.nextPacket]
        rw [← List.take_add, hmin4]
      simp only [exchange, TCPServer.receivePacket, hFINf, Bool.false_eq_true,
        if_false, TCPClient.ackUpdate]
      have hlt : c.seq + MAX_PACKET_DATA < c.msgBytes.length := by
        simp only [MAX_PACKET_DATA] at h4 ⊢
        omega
      simp only [hseq, hlt, if_pos, List.nil_append]
      rw [ih]
      · simpa using hlt
      · simpa using hbuf
      · simp only [MAX_PACKET_DATA] at h3 ⊢
        omega

/-! ## Claim theorems -/

/-- C1: For every message of length L transferred with loss probability 0,
segmented into packets of at most MAX_PACKET_DATA bytes each with FIN set
on the final slice, the server's reassembled buffer at the moment the
FIN-carrying packet is acknowledged equals the original message bytes
exactly.  `exchange` is the zero-loss dispatch chain of the event queue
(every draw delivers, so each send yields the server's receive and the
server's reply yields the client's receive); the list it returns holds
the buffer the server prints at the instant it acknowledges the
FIN-carrying packet, and that buffer is exactly the original message. -/
theorem C1_reassembly_exact (m : List ℕ) (h : 0 < m.length) :
    exchange m.length { msgBytes := m } {} = [m] := by
  apply exchange_delivers
  · simpa using h
  · simp
  · simp only [MAX_PACKET_DATA]
    omega

theorem C1_reassembly_exact_witness :
    exchange hello.length { msgBytes := hello } {} = [hello] :=
  C1_reassembly_exact hello (by decide)

/-- Corroboration of C1 on the full event-queue driver: the complete
`TCPSimulator()` run (request event at 0, timeout event at TIMEOUT, FIFO
priority queue) with loss probability 0 and input HELLO prints exactly
HELLO, drains its queue, and raises no exception. -/
theorem runWorld_hello_ok :
    (runWorld 8 (initWorld 0 [hello] [])).output = [hello] ∧
    (runWorld 8 (initWorld 0 [hello] [])).crashed = false ∧
    (runWorld 8 (initWorld 0 [hello] [])).queue = [] := by decide

/-- C2 counterexample: a reachable state in which the claimed flow-control
guard is violated.  In the zero-loss HELLO run, after three dispatches the
only acknowledgment the client has ever received is the reply
`TCPPacket(seq=0, ack=4, ACK=True)` whose advertised window is 0 (the
server builds replies with no `window` argument), yet the very dispatch
that processed it called `sendNextPacket`, which transmitted the second
data packet (scheduled for time 15) — a transmission made while the most
recently advertised window was 0, which no outstanding-byte count is
below. -/
theorem C2_counterexample :
    ((runWorld 3 (initWorld 0 [hello] [])).client.acknowledged =
      [ackReply0]) ∧
    ackReply0.window = 0 ∧
    ((TCPEvent.receivePacket .server finPacket1, 15) ∈
      (runWorld 3 (initWorld 0 [hello] [])).queue) ∧
    ((TCPEvent.receivePacket .server finPacket1, 15) ∉
      (runWorld 2 (initWorld 0 [hello] [])).queue) := by decide

/-- C2 (amended): the client performs no flow control at all.  It stores
neither an outstanding-byte count nor the peer's advertised window, and
`sendNextPacket` consults nothing but `msgBytes`, `seq`, `ack` and the
loss draw: two clients agreeing on those three fields (whatever
acknowledgments, and hence window advertisements, they have received)
transmit identically, and whenever the draw delivers, the data packet is
enqueued unconditionally. -/
theorem C2_no_flow_control (lossProb : ℚ) (q : List (TCPEvent × ℕ))
    (t d : ℕ) (c c' : TCPClient) (h1 : c.msgBytes = c'.msgBytes)
    (h2 : c.seq = c'.seq) (h3 : c.ack = c'.ack) :
    TCPClient.sendNextPacket lossProb c q t d =
      TCPClient.sendNextPacket lossProb c' q t d ∧
    (shouldDeliver lossProb d = true →
      (TCPEvent.receivePacket .server c.nextPacket,
        t + TRANSMISSION_DELAY) ∈ TCPClient.sendNextPacket lossProb c q t d) := by
  have hp : c.nextPacket = c'.nextPacket := by
    simp [TCPClient.nextPacket, h1, h2, h3]
  constructor
  · simp only [TCPClient.sendNextPacket, hp]
  · intro hd
    simp only [TCPClient.sendNextPacket, hd, if_true]
    split
    · exact mem_enqueue_of_mem _ _ (self_mem_enqueue _ _ _)
    · exact self_mem_enqueue _ _ _

theorem C2_no_flow_control_witness :
    (TCPClient.sendNextPacket 0
        { msgBytes := hello, seq := 4, ack := 1, acknowledged := [ackReply0] }
        [] 10 0 =
      TCPClient.sendNextPacket 0 { msgBytes := hello, seq := 4, ack := 1 }
        [] 10 0) ∧
    ((TCPEvent.receivePacket .server
        (TCPClient.nextPacket
          { msgBytes := hello, seq := 4, ack := 1,
            acknowledged := [ackReply0] }), 10 + TRANSMISSION_DELAY) ∈
      TCPClient.sendNextPacket 0
        { msgBytes := hello, seq := 4, ack := 1, acknowledged := [ackReply0] }
        [] 10 0) :=
  ⟨(C2_no_flow_control 0 [] 10 0
      { msgBytes := hello, seq := 4, ack := 1, acknowledged := [ackReply0] }
      { msgBytes := hello, seq := 4, ack := 1 } rfl rfl rfl).1,
   (C2_no_flow_control 0 [] 10 0
      { msgBytes := hello, seq := 4, ack := 1, acknowledged := [ackReply0] }
      { msgBytes := hello, seq := 4, ack := 1 } rfl rfl rfl).2 (by decide)⟩

/-- C3: the claim states the intended Timeout contract (acknowledged ⇒
no-op, unacknowledged ⇒ resend and reschedule), which matches the
module's own implementation notes; the code violates it.  Evaluating the
code at the failing input: a `TimeoutEvent` dispatched while the
referenced object's `ack` attribute is 0 (falsy, i.e. unacknowledged)
raises `AttributeError` on the undefined attribute `self.server` instead
of resending and rescheduling. -/
theorem C3_timeout_crashes_instead_of_resending :
    TimeoutEvent.dispatch (some 0) =
      Except.error (PyExn.attributeError "server") := rfl

/-- C4 counterexample: the server does not check in-order delivery.  With
next-expected-seq 8 and eight buffered bytes, redelivering the stale
packet with seq 0 (≠ 8) changes the buffer (the four bytes are appended
again), rewinds next-expected-seq to 4, and acknowledges 4 rather than
the previously established 8. -/
theorem C4_counterexample :
    dupPacket.seq ≠ dupServer.ack ∧
    (dupServer.receivePacket dupPacket).1.msgBytes ≠ dupServer.msgBytes ∧
    (dupServer.receivePacket dupPacket).1.ack ≠ dupServer.ack ∧
    (dupServer.receivePacket dupPacket).2.1.ack ≠ dupServer.ack := by decide

/-- C4 (amended): `TCPServer.receivePacket` performs no in-order check at
all.  For every (non-FIN) packet it unconditionally appends the packet's
data to the reassembly buffer, sets next-expected-seq to
`p.seq + len(p.data)`, and acknowledges that same value — whether or not
`p.seq` equals the current next-expected-seq. -/
theorem C4_unconditional_append (s : TCPServer) (p : TCPPacket)
    (h : p.FIN = false) :
    (s.receivePacket p).1.msgBytes = s.msgBytes ++ p.data ∧
    (s.receivePacket p).1.ack = p.seq + p.data.length ∧
    (s.receivePacket p).2.1.ack = p.seq + p.data.length := by
  simp [TCPServer.receivePacket, h]

theorem C4_unconditional_append_witness :
    (dupServer.receivePacket dupPacket).1.msgBytes =
        dupServer.msgBytes ++ dupPacket.data ∧
    (dupServer.receivePacket dupPacket).1.ack =
        dupPacket.seq + dupPacket.data.length ∧
    (dupServer.receivePacket dupPacket).2.1.ack =
        dupPacket.seq + dupPacket.data.length :=
  C4_unconditional_append dupServer dupPacket rfl

/-- C5 counterexample: server receive is not idempotent on duplicates.
Redelivering the already-acknowledged first segment (seq 0, four bytes)
to a server whose next-expected-seq is 8 extends the reassembly buffer
with the duplicate bytes and decreases next-expected-seq from 8 to 4. -/
theorem C5_counterexample :
    (dupServer.receivePacket dupPacket).1.msgBytes ≠ dupServer.msgBytes ∧
    (dupServer.receivePacket dupPacket).1.ack < dupServer.ack := by decide

/-- C5 (amended): redelivering a (non-FIN, non-empty) duplicate always
corrupts the buffer: the buffer strictly grows by the duplicate data and
next-expected-seq is reset to `p.seq + len(p.data)`, which may be lower
than its prior value. -/
theorem C5_duplicate_not_idempotent (s : TCPServer) (p : TCPPacket)
    (hf : p.FIN = false) (hd : p.data ≠ []) :
    (s.receivePacket p).1.msgBytes ≠ s.msgBytes ∧
    (s.receivePacket p).1.msgBytes = s.msgBytes ++ p.data ∧
    (s.receivePacket p).1.ack = p.seq + p.data.length := by
  refine ⟨?_, ?_, ?_⟩
  · simp only [TCPServer.receivePacket, hf, Bool.false_eq_true, if_false]
    intro hEq
    apply hd
    have := congrArg List.length hEq
    simp only [List.length_append] at this
    exact List.eq_nil_of_length_eq_zero (by omega)
  · simp [TCPServer.receivePacket, hf]
  · simp [TCPServer.receivePacket, hf]

theorem C5_duplicate_not_idempotent_witness :
    (dupServer.receivePacket dupPacket).1.msgBytes ≠ dupServer.msgBytes ∧
    (dupServer.receivePacket dupPacket).1.msgBytes =
        dupServer.msgBytes ++ dupPacket.data ∧
    (dupServer.receivePacket dupPacket).1.ack =
        dupPacket.seq + dupPacket.data.length :=
  C5_duplicate_not_idempotent dupServer dupPacket rfl (by decide)

/-- C6 counterexample: the client does not mark in-flight data packets
acknowledged.  The HELLO client's first data packet (seq 0, in flight)
has seq below the cumulative ack 4 of the server's reply, yet after
`TCPClient.receivePacket` processes that reply the `acknowledged`
dictionary contains only the reply packet itself — the data packet was
never marked. -/
theorem C6_counterexample :
    TCPClient.nextPacket { msgBytes := hello } = helloDataPacket0 ∧
    helloDataPacket0.seq < ackReply0.ack ∧
    (TCPClient.receivePacket 0 { msgBytes := hello } ackReply0 [] 10
        []).1.acknowledged = [ackReply0] ∧
    helloDataPacket0 ∉
      (TCPClient.receivePacket 0 { msgBytes := hello } ackReply0 [] 10
        []).1.acknowledged := by decide

/-- C6 (amended): on receipt of an acknowledgment packet the client sets
its send pointer `seq` to `ackPacket.ack` (the cumulative point) and its
`ack` field to `ackPacket.seq + 1`, but the only acknowledgment record it
keeps is inserting the received ack packet itself into the `acknowledged`
dictionary; no in-flight data packet is marked. -/
theorem C6_ack_update (lossProb : ℚ) (c : TCPClient) (p : TCPPacket)
    (q : List (TCPEvent × ℕ)) (t : ℕ) (ds : List ℕ) :
    (TCPClient.receivePacket lossProb c p q t ds).1.seq = p.ack ∧
    (TCPClient.receivePacket lossProb c p q t ds).1.ack = p.seq + 1 ∧
    (TCPClient.receivePacket lossProb c p q t ds).1.acknowledged =
      p :: c.acknowledged := by
  simp only [TCPClient.receivePacket]
  split <;> simp [TCPClient.ackUpdate]

/-- C7: the client's acknowledged-set is monotonic across the whole run:
once a packet is in the `acknowledged` dictionary, no number of further
dispatched events (of any kind, in any order) removes it. -/
theorem C7_acknowledged_monotone (n : ℕ) (w : World) (p : TCPPacket)
    (h : p ∈ w.client.acknowledged) :
    p ∈ (runWorld n w).client.acknowledged := by
  induction n generalizing w with
  | zero => exact h
  | succ k ih =>
    unfold runWorld
    split
    · exact h
    · exact ih _ (stepWorld_acknowledged_mono w h)

theorem C7_acknowledged_monotone_witness :
    ackReply0 ∈ (runWorld 4
      { initWorld 0 [hello] [] with
        client := { acknowledged := [ackReply0] } }).client.acknowledged :=
  C7_acknowledged_monotone 4 _ _ (by decide)

/-- C8: evaluation of the loss decision
`random.randint(0,1) >= LOST_PACKET_PROBABILITY`.  With
`LOST_PACKET_PROBABILITY = 1` the draw 1 still delivers (so "none is
delivered" fails); with the default 1/4 exactly one of the two
equiprobable draws {0,1} is dropped, a drop frequency of 1/2, not 1/4;
and the server-to-client direction is never subject to a loss draw at
all: the server's dispatch enqueues its reply unconditionally. -/
theorem C8_loss_draw_not_bernoulli :
    shouldDeliver 1 1 = true ∧
    (List.filter (fun d => !shouldDeliver LOST_PACKET_PROBABILITY d)
        [0, 1]).length = 1 ∧
    shouldDeliver LOST_PACKET_PROBABILITY 0 = false ∧
    shouldDeliver LOST_PACKET_PROBABILITY 1 = true ∧
    (∀ d : ℕ, shouldDeliver 0 d = true) ∧
    (∀ (w : World) (p : TCPPacket) (t : ℕ),
      (TCPEvent.receivePacket .client (w.server.receivePacket p).2.1,
          t + TRANSMISSION_DELAY) ∈
        (dispatchEvent w (.receivePacket .server p) t).queue) := by
  refine ⟨by decide, by decide, by decide, by decide, ?_, ?_⟩
  · intro d
    simp [shouldDeliver]
  · intro w p t
    simp only [dispatchEvent]
    exact self_mem_enqueue _ _ _

/-- C9: the single `TimeoutEvent` created by the driver (stored object:
the client) never resends anything.  The driver's initial queue holds
exactly the request event at 0 and that timeout event at TIMEOUT; when
the stored object's `ack` attribute is present and truthy the dispatch is
a no-op producing no events, in every other case (attribute absent or 0)
it raises `AttributeError` (undefined `self.server`, and the method it
would call, `recievePacket`, is defined by no class); at world level a
timeout dispatch either leaves the world unchanged or crashes the run. -/
theorem C9_startup_timeout_never_resends (lp : ℚ) (ins : List (List ℕ))
    (ds : List ℕ) (a : Option ℕ) :
    (initWorld lp ins ds).queue =
      [(TCPEvent.requestMessage, 0), (TCPEvent.timeout, TIMEOUT)] ∧
    ((∃ v, a = some v ∧ v ≠ 0) → TimeoutEvent.dispatch a = Except.ok []) ∧
    ((a = none ∨ a = some 0) →
      ∃ s, TimeoutEvent.dispatch a = Except.error (PyExn.attributeError s)) ∧
    (∀ (w : World) (t : ℕ),
      dispatchEvent w .timeout t = w ∨
        dispatchEvent w .timeout t = { w with crashed := true }) := by
  refine ⟨rfl, ?_, ?_, ?_⟩
  · rintro ⟨v, rfl, hv⟩
    simp [TimeoutEvent.dispatch, hv]
  · rintro (rfl | rfl)
    · exact ⟨"ack", rfl⟩
    · exact ⟨"server", rfl⟩
  · intro w t
    by_cases h : w.client.ack = 0
    · right
      simp [dispatchEvent, TimeoutEvent.dispatch, h]
    · left
      simp [dispatchEvent, TimeoutEvent.dispatch, h]

theorem C9_startup_timeout_never_resends_witness :
    TimeoutEvent.dispatch (some 5) = Except.ok [] :=
  (C9_startup_timeout_never_resends 0 [] [] (some 5)).2.1
    ⟨5, rfl, by decide⟩

/-- C10: `sendNextPacket` never enqueues a Timeout event (everything it
enqueues is a server `ReceivePacket` event or a `RequestMessage` event),
and when the loss draw drops the outgoing packet it enqueues nothing at
all — the queue is returned untouched, so no event referring to the
dropped packet is ever scheduled. -/
theorem C10_send_never_schedules_timeout (lossProb : ℚ) (c : TCPClient)
    (q : List (TCPEvent × ℕ)) (t : ℕ) (d : ℕ) :
    (∀ x ∈ TCPClient.sendNextPacket lossProb c q t d,
        x ∈ q ∨ x.1 ≠ TCPEvent.timeout) ∧
    (shouldDeliver lossProb d = false →
      TCPClient.sendNextPacket lossProb c q t d = q) := by
  constructor
  · intro x hx
    simp only [TCPClient.sendNextPacket] at hx
    split at hx
    · split at hx
      · rcases mem_enqueue hx with h1 | h1
        · rcases mem_enqueue h1 with h2 | h2
          · exact Or.inl h2
          · subst h2
            exact Or.inr (by simp)
        · subst h1
          exact Or.inr (by simp)
      · rcases mem_enqueue hx with h1 | h1
        · exact Or.inl h1
        · subst h1
          exact Or.inr (by simp)
    · exact Or.inl hx
  · intro hd
    simp [TCPClient.sendNextPacket, hd]

theorem C10_send_never_schedules_timeout_witness :
    shouldDeliver 1 0 = false ∧
      TCPClient.sendNextPacket 1 { msgBytes := hello } [] 0 0 = [] :=
  ⟨by decide,
   (C10_send_never_schedules_timeout 1 { msgBytes := hello } [] 0 0).2
     (by decide)⟩

end TCPSim
